import Mathlib

/-!
Verification of the `ddblock` distributed lock package (Go, DynamoDB-backed).

The embedding models the package state and its four store-touching
operations (`create`, `update`, `delete`, and the wrappers `Lock`/`Unlock`)
as pure functions.  The DynamoDB table is modelled as the single item stored
under the mutex key (`Option LeaseRecord`); each network call additionally
takes a `transport : Option GoError` oracle: `none` means the request reached
DynamoDB and its conditional semantics decide the outcome, `some e` means the
call failed with the transport or configuration error `e` before the
condition was evaluated.  Clock reads (`time.Now().UnixNano()`) are passed in
as explicit `Int` nanosecond arguments, and the mutable package variable
`DefaultTTL` is passed as an explicit `defaultTTL` argument where the source
reads it.
-/

namespace Ddblock

/-- A Go `error` value as the package observes it: either an AWS SDK error
carrying a code (`awserr.Error`), or a plain error with only a message
(such as `errors.New` values or transport failures). -/
inductive GoError where
  | awsError (code : String) (message : String)
  | plainError (message : String)
deriving DecidableEq

/-- The `Error()` string of a `GoError`, used when the code passes an error
to `panic`. -/
def errMessage : GoError → String
  | .awsError code msg => code ++ ": " ++ msg
  | .plainError msg => msg

/-- `ErrConflict`: the exported sentinel declared at the top of the package
with `errors.New`.  (It is declared but never returned by any function.) -/
def ErrConflict : GoError := .plainError "ddbmutex: conflict, lock held by another"

/-- `DefaultTableName = "locks"`. -/
def DefaultTableName : String := "locks"

/-- `DefaultTTL = time.Minute`, in nanoseconds (Go `time.Duration`). -/
def DefaultTTL : Int := 60 * 1000000000

/-- The in-process `Mutex` struct.  `ctxCancelled` models whether the
handle's derived context has been cancelled (`m.cancel()` was called or the
parent context ended). -/
structure Mutex where
  ctxCancelled : Bool
  TableName : String
  TTL : Int
  name : String
  fullname : String
  uuid : String
deriving DecidableEq

/-- `New(ctx, name)`: fresh handle with defaulted table and TTL, derived
`fullname`, and a `uuid` generated once, here, from the construction-time
clock (`fmt.Sprintf("%d", time.Now().UnixNano())`). -/
def New (nowNano : Int) (nm : String) : Mutex :=
  { ctxCancelled := false
    TableName := DefaultTableName
    TTL := DefaultTTL
    name := nm
    fullname := "ddblock-" ++ nm
    uuid := toString nowNano }

/-- Result of `cleanTTL`, which may `panic`. -/
inductive TTLResult where
  | ok (ttl : Int)
  | panicked (msg : String)
deriving DecidableEq

/-- `cleanTTL`: substitute `DefaultTTL` for a zero `m.TTL`; `panic` only if
the substituted value is still zero.  The package variable `DefaultTTL` is
the `defaultTTL` argument. -/
def cleanTTL (m : Mutex) (defaultTTL : Int) : TTLResult :=
  let ttl := if m.TTL = 0 then defaultTTL else m.TTL
  if ttl = 0 then .panicked "ttl can not be zero" else .ok ttl

/-- One DynamoDB item of the lock table: attributes `name` (the key),
`expires` (numeric UnixNano string, compared numerically) and `uuid`. -/
structure LeaseRecord where
  name : String
  expires : Int
  uuid : String
deriving DecidableEq

/-- The raw AWS error DynamoDB returns when a `ConditionExpression`
evaluates to false. -/
def conditionalCheckFailedErr : GoError :=
  .awsError "ConditionalCheckFailedException" "The conditional request failed"

/-- DynamoDB `PutItem` with a `ConditionExpression`: on transport failure the
store is untouched and the raw error is returned; otherwise the condition is
evaluated against the stored item — if it holds the item is replaced, else
the store is untouched and the raw `ConditionalCheckFailedException` is
returned. -/
def ddbPutItem (store : Option LeaseRecord) (cond : Option LeaseRecord → Bool)
    (item : LeaseRecord) (transport : Option GoError) :
    Option LeaseRecord × Option GoError :=
  match transport with
  | some e => (store, some e)
  | none =>
      if cond store then (some item, none)
      else (store, some conditionalCheckFailedErr)

/-- DynamoDB `DeleteItem` with a `ConditionExpression`, analogous to
`ddbPutItem`; deleting a missing item under a condition on its attributes
fails the condition. -/
def ddbDeleteItem (store : Option LeaseRecord) (cond : Option LeaseRecord → Bool)
    (transport : Option GoError) : Option LeaseRecord × Option GoError :=
  match transport with
  | some e => (store, some e)
  | none =>
      if cond store then (none, none)
      else (store, some conditionalCheckFailedErr)

/-- The `create` ConditionExpression
`#name <> :name OR (#name = :name AND #exp < :exp)` evaluated against the
stored item, with `:name = m.fullname` and `:exp` the current UnixNano.
When no item exists the `name` attribute is absent, so `#name <> :name`
holds and the condition succeeds. -/
def createCondition (fullname : String) (nowNano : Int) : Option LeaseRecord → Bool
  | none => true
  | some r => decide (r.name ≠ fullname ∨ (r.name = fullname ∧ r.expires < nowNano))

/-- The ConditionExpression `#name = :name AND #uuid = :uuid` shared by
`update` and `delete`: the stored item must exist and carry this handle's
identity.  A missing item has no attributes, so both equalities fail. -/
def ownerCondition (fullname uuid : String) : Option LeaseRecord → Bool
  | none => false
  | some r => decide (r.name = fullname ∧ r.uuid = uuid)

/-- The item `create` and `update` write: key `fullname`,
`expires = now.Add(cleanTTL()).UnixNano()`, and the handle's stored `uuid`. -/
def createItem (m : Mutex) (nowNano ttl : Int) : LeaseRecord :=
  { name := m.fullname, expires := nowNano + ttl, uuid := m.uuid }

/-- Result of a call that may `panic` instead of returning. -/
inductive PanicOr (α : Type) where
  | ret (v : α)
  | panicked (msg : String)
deriving DecidableEq

/-- `Mutex.create`: one conditional `PutItem` with the `createCondition`;
the raw error (nil, conditional-check-failed, or transport) is returned
unchanged.  A `cleanTTL` panic propagates. -/
def create (m : Mutex) (defaultTTL nowNano : Int) (store : Option LeaseRecord)
    (transport : Option GoError) : PanicOr (Option LeaseRecord × Option GoError) :=
  match cleanTTL m defaultTTL with
  | .panicked msg => .panicked msg
  | .ok ttl =>
      .ret (ddbPutItem store (createCondition m.fullname nowNano)
        (createItem m nowNano ttl) transport)

/-- `Mutex.update` (one renewal tick): no-op when already unlocked
(`uuid == ""`); otherwise one conditional `PutItem` with the
`ownerCondition`, and — as written in the source — `panic(err)` on ANY
error from the call, conditional-check failure and transport failure
alike. -/
def update (m : Mutex) (defaultTTL nowNano : Int) (store : Option LeaseRecord)
    (transport : Option GoError) : PanicOr (Option LeaseRecord × Option GoError) :=
  if m.uuid = "" then .ret (store, none)
  else
    match cleanTTL m defaultTTL with
    | .panicked msg => .panicked msg
    | .ok ttl =>
        match ddbPutItem store (ownerCondition m.fullname m.uuid)
            (createItem m nowNano ttl) transport with
        | (_, some e) => .panicked (errMessage e)
        | (store2, none) => .ret (store2, none)

/-- Outcome of `Mutex.delete` / `Unlock`: the updated handle, the store
after the call, the returned error, and whether a DynamoDB call was made
at all. -/
structure DeleteOutcome where
  mutex : Mutex
  store : Option LeaseRecord
  err : Option GoError
  calledStore : Bool
deriving DecidableEq

/-- `IsAquireError`: true exactly when the error is an `awserr.Error` whose
code is `ConditionalCheckFailedException`; `nil` and non-AWS errors give
false. -/
def IsAquireError : Option GoError → Bool
  | some (.awsError code _) => decide (code = "ConditionalCheckFailedException")
  | _ => false

/-- `Mutex.delete`: immediate nil return without any store call when
`uuid == ""`; otherwise one conditional `DeleteItem` with the
`ownerCondition`.  If that call succeeds or fails the condition
(`IsAquireError`), the `uuid` is cleared and nil is returned; any other
error is returned with the `uuid` intact. -/
def delete (m : Mutex) (store : Option LeaseRecord) (transport : Option GoError) :
    DeleteOutcome :=
  if m.uuid = "" then
    { mutex := m, store := store, err := none, calledStore := false }
  else
    let res := ddbDeleteItem store (ownerCondition m.fullname m.uuid) transport
    if IsAquireError res.2 || res.2.isNone then
      { mutex := { m with uuid := "" }, store := res.1, err := none, calledStore := true }
    else
      { mutex := m, store := res.1, err := res.2, calledStore := true }

/-- `Mutex.Unlock`: cancel the handle's context, then `delete`. -/
def Unlock (m : Mutex) (store : Option LeaseRecord) (transport : Option GoError) :
    DeleteOutcome :=
  delete { m with ctxCancelled := true } store transport

/-- Outcome of `Mutex.Lock`.  `renewalLoopRuns` records whether the renewal
goroutine launched by `Lock` performs ticks: the `go` statement runs
unconditionally, before and independent of the `create` call, and its loop
body executes as long as the handle's context is not cancelled
(`for m.ctx.Err() == nil`). -/
structure LockOutcome where
  renewalLoopRuns : Bool
  result : PanicOr (Option LeaseRecord × Option GoError)
deriving DecidableEq

/-- `Mutex.Lock`: start the renewal goroutine (unconditionally, first), then
return `create`'s raw result. -/
def Lock (m : Mutex) (defaultTTL nowNano : Int) (store : Option LeaseRecord)
    (transport : Option GoError) : LockOutcome :=
  { renewalLoopRuns := !m.ctxCancelled
    result := create m defaultTTL nowNano store transport }

/-- A sequence of `Unlock` calls, each against its own observed store state
and transport outcome; returns the final handle and the list of returned
errors. -/
def unlockMany (m : Mutex) :
    List (Option LeaseRecord × Option GoError) → Mutex × List (Option GoError)
  | [] => (m, [])
  | (s, tr) :: rest =>
      let o := Unlock m s tr
      let r := unlockMany o.mutex rest
      (r.1, o.err :: r.2)

/-! ### Helper lemmas -/

/-- With the shipped `DefaultTTL` (one minute), `cleanTTL` never panics: a
zero `m.TTL` is replaced by the default. -/
theorem cleanTTL_default (m : Mutex) :
    cleanTTL m DefaultTTL = TTLResult.ok (if m.TTL = 0 then DefaultTTL else m.TTL) := by
  by_cases h : m.TTL = 0 <;> simp [cleanTTL, h, DefaultTTL]

theorem delete_already_unlocked (m : Mutex) (store : Option LeaseRecord)
    (tr : Option GoError) (h : m.uuid = "") :
    delete m store tr = { mutex := m, store := store, err := none, calledStore := false } := by
  simp [delete, h]

theorem delete_err_none_uuid (m : Mutex) (store : Option LeaseRecord)
    (tr : Option GoError) (h : (delete m store tr).err = none) :
    (delete m store tr).mutex.uuid = "" := by
  by_cases h0 : m.uuid = ""
  · simp [delete, h0]
  · simp only [delete, if_neg h0] at h ⊢
    set res := ddbDeleteItem store (ownerCondition m.fullname m.uuid) tr with hres
    by_cases hc : (IsAquireError res.2 || res.2.isNone) = true
    · simp [hc]
    · simp only [Bool.not_eq_true] at hc
      simp only [hc, Bool.false_eq_true, if_false] at h
      rw [h] at hc
      simp at hc

theorem unlockMany_already_released (m : Mutex) (h : m.uuid = "") :
    ∀ calls, (unlockMany m calls).2 = List.replicate calls.length none := by
  intro calls
  induction calls generalizing m with
  | nil => simp [unlockMany]
  | cons c rest ih =>
      obtain ⟨s, tr⟩ := c
      have h1 : ({ m with ctxCancelled := true } : Mutex).uuid = "" := h
      simp [unlockMany, Unlock, delete_already_unlocked _ s tr h1, ih _ h1,
        List.replicate_succ]

/-! ### Claims -/

/-- Claim C1: for every `Lock` attempt, the conditional-create condition
succeeds (the item is written with nil error) if no record exists for the
storage key or the existing record is already expired (`expires` before
now), and it fails — yielding the raw conditional-check-failed Conflict
error, recognized by `IsAquireError` — if a live record with a different
identity exists. -/
theorem C1_acquire_condition (m : Mutex) (nowNano : Int) (store : Option LeaseRecord)
    (hkey : ∀ r, store = some r → r.name = m.fullname) :
    ((store = none ∨ ∃ r, store = some r ∧ r.expires < nowNano) →
      ∃ ttl, create m DefaultTTL nowNano store none =
        PanicOr.ret (some (createItem m nowNano ttl), none)) ∧
    (∀ r, store = some r → ¬ r.expires < nowNano → r.uuid ≠ m.uuid →
      create m DefaultTTL nowNano store none =
        PanicOr.ret (store, some conditionalCheckFailedErr) ∧
      IsAquireError (some conditionalCheckFailedErr) = true) := by
  constructor
  · rintro (rfl | ⟨r, rfl, hexp⟩)
    · refine ⟨if m.TTL = 0 then DefaultTTL else m.TTL, ?_⟩
      simp [create, cleanTTL_default, ddbPutItem, createCondition]
    · have hn := hkey r rfl
      refine ⟨if m.TTL = 0 then DefaultTTL else m.TTL, ?_⟩
      simp [create, cleanTTL_default, ddbPutItem, createCondition, hn, hexp]
  · rintro r rfl hexp huuid
    have hn := hkey r rfl
    refine ⟨?_, by decide⟩
    simp [create, cleanTTL_default, ddbPutItem, createCondition, hn, hexp]

/-- Witness for C1: a fresh handle acquires on an empty store, and acquiring
against a live record held by another identity yields the raw
conditional-check-failed error. -/
theorem C1_acquire_condition_witness :
    (∃ ttl, create (New 100 "foo") DefaultTTL 200 none none =
      PanicOr.ret (some (createItem (New 100 "foo") 200 ttl), none)) ∧
    (create (New 100 "foo") DefaultTTL 200
        (some { name := "ddblock-foo", expires := 500, uuid := "42" }) none =
      PanicOr.ret (some { name := "ddblock-foo", expires := 500, uuid := "42" },
        some conditionalCheckFailedErr) ∧
      IsAquireError (some conditionalCheckFailedErr) = true) := by
  constructor
  · exact (C1_acquire_condition (New 100 "foo") 200 none
      (fun r hr => by cases hr)).1 (Or.inl rfl)
  · exact (C1_acquire_condition (New 100 "foo") 200
      (some { name := "ddblock-foo", expires := 500, uuid := "42" })
      (fun r hr => by cases hr; rfl)).2 _ rfl (by decide) (by decide)

/-- Claim C2 (code bug): the spec requires a failed renewal tick never to
crash the process, but `update` as written panics on every error from the
conditional `PutItem` — both on a condition failure (ownership lost, here
the record is absent) and on a transport failure. -/
theorem C2_renewal_failure_crashes :
    update (New 100 "foo") DefaultTTL 200 none none =
      PanicOr.panicked (errMessage conditionalCheckFailedErr) ∧
    update (New 100 "foo") DefaultTTL 200
      (some { name := "ddblock-foo", expires := 100 + DefaultTTL, uuid := "100" })
      (some (GoError.plainError "RequestError: send request failed")) =
      PanicOr.panicked "RequestError: send request failed" :=
  ⟨rfl, rfl⟩

/-- Counterexample to C3: `Lock` on a store holding a live record of another
identity returns the Conflict error, yet the renewal goroutine was started
and its loop runs. -/
theorem C3_counterexample :
    (Lock (New 100 "foo") DefaultTTL 200
      (some { name := "ddblock-foo", expires := 900, uuid := "49" }) none).renewalLoopRuns
      = true ∧
    (Lock (New 100 "foo") DefaultTTL 200
      (some { name := "ddblock-foo", expires := 900, uuid := "49" }) none).result =
      PanicOr.ret (some { name := "ddblock-foo", expires := 900, uuid := "49" },
        some conditionalCheckFailedErr) :=
  ⟨rfl, rfl⟩

/-- Claim C3 amended: `Lock` starts the renewal goroutine unconditionally,
before the conditional-create executes; whether the loop runs depends only
on the handle's context, never on the outcome of the create, whose raw
result `Lock` returns. -/
theorem C3_renewal_loop_unconditional (m : Mutex) (d t : Int)
    (store store2 : Option LeaseRecord) (tr tr2 : Option GoError) :
    (Lock m d t store tr).renewalLoopRuns = !m.ctxCancelled ∧
    (Lock m d t store tr).renewalLoopRuns = (Lock m d t store2 tr2).renewalLoopRuns ∧
    (Lock m d t store tr).result = create m d t store tr :=
  ⟨rfl, rfl, rfl⟩

/-- Claim C4: `Unlock` is idempotent — with an empty `uuid` it returns nil
immediately without any store call, and after any call that returned nil
every further `Unlock`, whatever store states or transport outcomes it
observes, returns nil. -/
theorem C4_release_idempotent (m : Mutex) (store : Option LeaseRecord)
    (tr : Option GoError) :
    (m.uuid = "" → Unlock m store tr =
      { mutex := { m with ctxCancelled := true }, store := store, err := none,
        calledStore := false }) ∧
    ((Unlock m store tr).err = none →
      ∀ calls, (unlockMany (Unlock m store tr).mutex calls).2 =
        List.replicate calls.length none) := by
  constructor
  · intro h
    exact delete_already_unlocked _ store tr h
  · intro h calls
    exact unlockMany_already_released _ (delete_err_none_uuid _ store tr h) calls

/-- Witness for C4: an already-released handle unlocks as a no-op, and after
a first successful `Unlock` two further calls both return nil. -/
theorem C4_release_idempotent_witness :
    Unlock { New 100 "foo" with uuid := "" } none none =
      { mutex := { { New 100 "foo" with uuid := "" } with ctxCancelled := true },
        store := none, err := none, calledStore := false } ∧
    (unlockMany (Unlock (New 100 "foo") none none).mutex
      [(none, none), (none, none)]).2 = [none, none] := by
  constructor
  · exact (C4_release_idempotent { New 100 "foo" with uuid := "" } none none).1 rfl
  · exact (C4_release_idempotent (New 100 "foo") none none).2 (by decide)
      [(none, none), (none, none)]

/-- Claim C5: when the conditional-delete succeeds, or fails the condition
because the record is absent or carries another identity, `delete` clears
the `uuid` (the released state) and returns nil. -/
theorem C5_release_conflict_as_success (m : Mutex) (store : Option LeaseRecord)
    (h : m.uuid ≠ "") :
    ((∃ r, store = some r ∧ r.name = m.fullname ∧ r.uuid = m.uuid) →
      delete m store none =
        { mutex := { m with uuid := "" }, store := none, err := none,
          calledStore := true }) ∧
    ((store = none ∨ ∃ r, store = some r ∧ (r.name ≠ m.fullname ∨ r.uuid ≠ m.uuid)) →
      delete m store none =
        { mutex := { m with uuid := "" }, store := store, err := none,
          calledStore := true }) := by
  constructor
  · rintro ⟨r, rfl, hn, hu⟩
    simp [delete, h, ddbDeleteItem, ownerCondition, hn, hu, IsAquireError,
      conditionalCheckFailedErr]
  · rintro (rfl | ⟨r, rfl, hn | hu⟩)
    · simp [delete, h, ddbDeleteItem, ownerCondition, IsAquireError,
        conditionalCheckFailedErr]
    · simp [delete, h, ddbDeleteItem, ownerCondition, hn, IsAquireError,
        conditionalCheckFailedErr]
    · simp [delete, h, ddbDeleteItem, ownerCondition, hu, IsAquireError,
        conditionalCheckFailedErr]

/-- Witness for C5: deleting an own live record succeeds and clears the
`uuid`; deleting on an empty store is a condition failure also treated as
success. -/
theorem C5_release_conflict_as_success_witness :
    delete (New 100 "foo")
      (some { name := "ddblock-foo", expires := 500, uuid := "100" }) none =
      { mutex := { New 100 "foo" with uuid := "" }, store := none, err := none,
        calledStore := true } ∧
    delete (New 100 "foo") none none =
      { mutex := { New 100 "foo" with uuid := "" }, store := none, err := none,
        calledStore := true } := by
  constructor
  · exact (C5_release_conflict_as_success (New 100 "foo") _ (by decide)).1
      ⟨_, rfl, rfl, rfl⟩
  · exact (C5_release_conflict_as_success (New 100 "foo") none (by decide)).2
      (Or.inl rfl)

/-- Claim C6: when the conditional-delete fails with a non-Conflict
(transport or configuration) error, `delete` returns that error and leaves
the `uuid` unchanged. -/
theorem C6_release_transport_error (m : Mutex) (store : Option LeaseRecord)
    (e : GoError) (h : m.uuid ≠ "") (he : IsAquireError (some e) = false) :
    delete m store (some e) =
      { mutex := m, store := store, err := some e, calledStore := true } := by
  simp [delete, h, ddbDeleteItem, he]

/-- Witness for C6: a transport failure during `delete` is surfaced and the
handle keeps its `uuid`. -/
theorem C6_release_transport_error_witness :
    delete (New 100 "foo") none
      (some (GoError.plainError "RequestError: send request failed")) =
      { mutex := New 100 "foo", store := none,
        err := some (GoError.plainError "RequestError: send request failed"),
        calledStore := true } :=
  C6_release_transport_error (New 100 "foo") none _ (by decide) (by decide)

/-- Counterexample to C7: the token a `Lock` at time 200 writes is the
construction-time value "100" generated by `New` at time 100, not a value
generated at acquisition time. -/
theorem C7_counterexample :
    (New 100 "foo").uuid = "100" ∧
    create (New 100 "foo") DefaultTTL 200 none none =
      PanicOr.ret
        (some { name := "ddblock-foo", expires := 200 + DefaultTTL, uuid := "100" },
          none) ∧
    ("100" : String) ≠ "200" :=
  ⟨rfl, rfl, by decide⟩

/-- Claim C7 amended: the `uuid` is generated once, at construction, from
the construction-time clock, and every record a successful `create` writes
carries exactly that stored construction-time token. -/
theorem C7_token_generated_at_construction (t0 : Int) (nm : String) (d t : Int)
    (store : Option LeaseRecord) (tr : Option GoError) :
    (New t0 nm).uuid = toString t0 ∧
    (∀ rec, create (New t0 nm) d t store tr = PanicOr.ret (some rec, none) →
      rec.uuid = toString t0) := by
  refine ⟨rfl, ?_⟩
  intro rec h
  simp only [create] at h
  cases hcl : cleanTTL (New t0 nm) d with
  | panicked msg => rw [hcl] at h; cases h
  | ok ttl =>
      rw [hcl] at h
      cases tr with
      | some e => simp [ddbPutItem] at h
      | none =>
          cases hcc : createCondition (New t0 nm).fullname t store with
          | false => simp [ddbPutItem, hcc] at h
          | true =>
              simp only [ddbPutItem, hcc, if_true, PanicOr.ret.injEq,
                Prod.mk.injEq, Option.some.injEq] at h
              rw [← h.1]
              rfl

/-- Witness for C7 amended: the record written by the acquisition at time
200 of the handle constructed at time 100 carries the token `toString 100`. -/
theorem C7_token_generated_at_construction_witness :
    ({ name := "ddblock-foo", expires := 200 + DefaultTTL, uuid := "100" } :
      LeaseRecord).uuid = toString (100 : Int) :=
  (C7_token_generated_at_construction 100 "foo" DefaultTTL 200 none none).2 _ rfl

/-- Counterexample to C8: a handle whose `TTL` was set to zero does not fail
fast — `cleanTTL` silently substitutes the package default of one minute. -/
theorem C8_counterexample :
    cleanTTL { New 100 "foo" with TTL := 0 } DefaultTTL = TTLResult.ok DefaultTTL ∧
    TTLResult.ok DefaultTTL ≠ TTLResult.panicked "ttl can not be zero" :=
  ⟨rfl, by decide⟩

/-- Claim C8 amended: a zero `TTL` is silently replaced by the package
variable `DefaultTTL`; `cleanTTL` panics only when that fallback is itself
zero, and a non-zero `TTL` is used as configured. -/
theorem C8_zero_ttl_uses_default (m : Mutex) (d : Int) :
    (m.TTL = 0 → d ≠ 0 → cleanTTL m d = TTLResult.ok d) ∧
    (m.TTL = 0 → d = 0 → cleanTTL m d = TTLResult.panicked "ttl can not be zero") ∧
    (m.TTL ≠ 0 → cleanTTL m d = TTLResult.ok m.TTL) := by
  refine ⟨fun h hd => ?_, fun h hd => ?_, fun h => ?_⟩
  · simp [cleanTTL, h, hd]
  · simp [cleanTTL, h, hd]
  · simp [cleanTTL, h]

/-- Witness for C8 amended: with the shipped one-minute default, a zero
`TTL` yields that default; a zero default then panics; a non-zero `TTL` is
kept. -/
theorem C8_zero_ttl_uses_default_witness :
    cleanTTL { New 100 "foo" with TTL := 0 } DefaultTTL = TTLResult.ok DefaultTTL ∧
    cleanTTL { New 100 "foo" with TTL := 0 } 0 =
      TTLResult.panicked "ttl can not be zero" ∧
    cleanTTL (New 100 "foo") DefaultTTL = TTLResult.ok DefaultTTL := by
  refine ⟨(C8_zero_ttl_uses_default _ _).1 rfl (by decide),
    (C8_zero_ttl_uses_default _ _).2.1 rfl rfl,
    (C8_zero_ttl_uses_default (New 100 "foo") DefaultTTL).2.2 (by decide)⟩

/-- Every successful renewal tick on a held handle writes exactly the fresh
item `createItem m t ttl`. -/
theorem update_success_shape (m : Mutex) (t : Int) (s0 s1 : Option LeaseRecord)
    (hheld : m.uuid ≠ "")
    (h : update m DefaultTTL t s0 none = PanicOr.ret (s1, none)) :
    s1 = some (createItem m t (if m.TTL = 0 then DefaultTTL else m.TTL)) := by
  simp only [update] at h
  rw [if_neg hheld, cleanTTL_default] at h
  simp only [ddbPutItem] at h
  cases hcc : ownerCondition m.fullname m.uuid s0 with
  | false => simp [hcc] at h
  | true =>
      simp only [hcc, if_true, PanicOr.ret.injEq, Prod.mk.injEq] at h
      exact h.1.symm

/-- Claim C9: across two successful renewal ticks of a held lock at strictly
increasing times, the recorded `expires` strictly increases. -/
theorem C9_renewal_expiry_monotonic (m : Mutex) (t1 t2 : Int)
    (s0 s1 s2 : Option LeaseRecord) (hheld : m.uuid ≠ "") (ht : t1 < t2)
    (h1 : update m DefaultTTL t1 s0 none = PanicOr.ret (s1, none))
    (h2 : update m DefaultTTL t2 s1 none = PanicOr.ret (s2, none)) :
    ∃ r1 r2, s1 = some r1 ∧ s2 = some r2 ∧ r1.expires < r2.expires := by
  refine ⟨_, _, update_success_shape m t1 s0 s1 hheld h1,
    update_success_shape m t2 s1 s2 hheld h2, ?_⟩
  simp only [createItem]
  omega

/-- Witness for C9: two concrete renewal ticks at times 200 and 300 move the
recorded expiry from `200 + DefaultTTL` to `300 + DefaultTTL`. -/
theorem C9_renewal_expiry_monotonic_witness :
    ∃ r1 r2,
      (some { name := "ddblock-foo", expires := 200 + DefaultTTL, uuid := "100" } :
        Option LeaseRecord) = some r1 ∧
      (some { name := "ddblock-foo", expires := 300 + DefaultTTL, uuid := "100" } :
        Option LeaseRecord) = some r2 ∧
      r1.expires < r2.expires :=
  C9_renewal_expiry_monotonic (New 100 "foo") 200 300
    (some { name := "ddblock-foo", expires := 150, uuid := "100" })
    (some { name := "ddblock-foo", expires := 200 + DefaultTTL, uuid := "100" })
    (some { name := "ddblock-foo", expires := 300 + DefaultTTL, uuid := "100" })
    (by decide) (by decide) (by decide) (by decide)

/-- Claim C10: `IsAquireError` is true exactly on AWS errors with code
`ConditionalCheckFailedException` — in particular false on nil and on the
unused sentinel `ErrConflict` — and `Lock` passes `create`'s raw backend
error through: any error it returns is either the raw
conditional-check-failed error or the raw transport error, never the
sentinel. -/
theorem C10_error_classification :
    IsAquireError none = false ∧
    IsAquireError (some ErrConflict) = false ∧
    (∀ e : GoError, IsAquireError (some e) = true ↔
      ∃ msg, e = GoError.awsError "ConditionalCheckFailedException" msg) ∧
    (∀ (m : Mutex) (d t : Int) (store : Option LeaseRecord) (tr : Option GoError),
      (Lock m d t store tr).result = create m d t store tr) ∧
    (∀ (m : Mutex) (d t : Int) (store : Option LeaseRecord) (tr : Option GoError)
        (s : Option LeaseRecord) (e : GoError),
      (Lock m d t store tr).result = PanicOr.ret (s, some e) →
      e = conditionalCheckFailedErr ∨ tr = some e) ∧
    conditionalCheckFailedErr ≠ ErrConflict := by
  refine ⟨rfl, rfl, ?_, fun m d t store tr => rfl, ?_, by decide⟩
  · intro e
    cases e with
    | awsError c msg =>
        simp only [IsAquireError, decide_eq_true_eq]
        constructor
        · intro h
          exact ⟨msg, by rw [h]⟩
        · rintro ⟨msg2, h⟩
          injection h with h1 h2
    | plainError msg => simp [IsAquireError]
  · intro m d t store tr s e h
    simp only [Lock, create] at h
    cases hcl : cleanTTL m d with
    | panicked msg => rw [hcl] at h; cases h
    | ok ttl =>
        rw [hcl] at h
        cases tr with
        | some e2 =>
            simp only [ddbPutItem, PanicOr.ret.injEq, Prod.mk.injEq,
              Option.some.injEq] at h
            exact Or.inr (by rw [h.2])
        | none =>
            cases hcc : createCondition m.fullname t store with
            | true => simp [ddbPutItem, hcc] at h
            | false =>
                simp only [ddbPutItem, hcc, Bool.false_eq_true, if_false,
                  PanicOr.ret.injEq, Prod.mk.injEq, Option.some.injEq] at h
                exact Or.inl h.2.symm

/-- Witness for C10: the raw conditional-check-failed error is recognized by
`IsAquireError`, and on a contended concrete `Lock` the returned error is
that raw error. -/
theorem C10_error_classification_witness :
    IsAquireError (some (GoError.awsError "ConditionalCheckFailedException"
      "The conditional request failed")) = true ∧
    (conditionalCheckFailedErr = conditionalCheckFailedErr ∨
      (none : Option GoError) = some conditionalCheckFailedErr) := by
  refine ⟨(C10_error_classification.2.2.1 _).mpr ⟨_, rfl⟩, ?_⟩
  exact C10_error_classification.2.2.2.2.1 (New 100 "foo") DefaultTTL 200
    (some { name := "ddblock-foo", expires := 700, uuid := "55" }) none
    (some { name := "ddblock-foo", expires := 700, uuid := "55" })
    conditionalCheckFailedErr (by decide)

end Ddblock
